import Mathlib

/-!
Verification development for `src/producer/financial_data_producer.py`.

The Python module has two components:
* `FinancialDataGenerator` — builds one synthetic transaction record per call,
  maintaining bounded rolling pools of account ids and merchants;
* `KafkaTransactionProducer` — drives the generator in continuous (`run`) or
  burst (`run_burst`) mode and forwards each record to a Kafka producer.

Shallow embedding choices:
* every call to the `random` / `uuid` / `faker` libraries is replaced by a
  field of an explicit draw record (`TxDraws`), so each generation step is a
  pure function of the current pool state and the draws for that call;
* `random.uniform a b` is modelled as `a + u * (b - a)` for a draw
  `u ∈ [0, 1]`; `random.random()` is a draw in `[0, 1)`; `random.choice xs`
  is indexing by a draw (reduced mod the list length where the length is not
  statically fixed); Python floats are modelled as rationals;
* the Kafka producer is modelled as a trace of sink events
  (`publish key value`, `flush`, `close`); serialization is out of scope,
  a key is "null" exactly when the string is falsy, i.e. empty
  (`key_serializer=lambda k: k.encode('utf-8') if k else None`, line 155);
* `time.sleep` and all `print` calls have no observable effect in the model
  and are dropped; the potentially unbounded `while` loop of `run` is given
  explicit fuel.
-/

/-! ### Constant tables (lines 23-35 and inline literals of the source) -/

def TRANSACTION_TYPES : List String :=
  ["purchase", "withdrawal", "transfer", "deposit", "refund"]

def CURRENCIES : List String :=
  ["USD", "EUR", "GBP", "CHF", "JPY", "CAD", "AUD"]

def STATUSES : List String := ["completed", "pending", "failed"]

def MERCHANT_CATEGORIES : List String :=
  ["Grocery", "Restaurant", "Gas Station", "Online Shopping",
   "Entertainment", "Travel", "Healthcare", "Utilities",
   "Electronics", "Clothing", "Home Improvement", "Insurance",
   "Subscription Services", "Financial Services", "Education"]

def CARD_NETWORKS : List String := ["Visa", "Mastercard", "Amex", "Discover"]

/-- Denominations of line 70: `random.choice([20, 40, 50, 60, 80, 100, 200, 300, 500])`. -/
def WITHDRAWAL_DENOMS : List ℚ := [20, 40, 50, 60, 80, 100, 200, 300, 500]

/-- Channel literals of line 128. -/
def CHANNELS : List String := ["mobile_app", "web", "pos_terminal", "atm", "branch"]

/-- Card type literals of line 113. -/
def CARD_TYPES : List String := ["debit", "credit"]

/-! ### Record types (the dicts built by the generator) -/

/-- Merchant dict of `_generate_merchant` (lines 51-59). -/
structure Merchant where
  merchant_id : String
  merchant_name : String
  merchant_category : String
  mcc_code : String
deriving DecidableEq

def mdefault : Merchant := ⟨"", "", "", ""⟩

/-- Card dict of lines 110-114. -/
structure CardInfo where
  card_last_four : String
  card_network : String
  card_type : String
deriving DecidableEq

/-- Location dict of lines 88-93. -/
structure Location where
  city : String
  country : String
  latitude : ℚ
  longitude : ℚ
deriving DecidableEq

/-- Metadata dict of lines 127-131. -/
structure Metadata where
  channel : String
  device_id : Option String
  ip_address : Option String
deriving DecidableEq

/-- Transaction dict of lines 116-137.  The transfer-only keys added on
lines 135-137 become `Option` fields that are `none` for other types. -/
structure Transaction where
  transaction_id : String
  timestamp : String
  account_id : String
  transaction_type : String
  amount : ℚ
  currency : String
  status : String
  location : Location
  merchant : Option Merchant
  card_info : Option CardInfo
  metadata : Metadata
  recipient_account_id : Option String
  transfer_reference : Option String
deriving DecidableEq

/-! ### Random draws -/

/-- Draws consumed by `_generate_account_id` (lines 47-49):
`randint(100000, 999999)` and a choice of uppercase letter. -/
structure AccountIdDraw where
  num : Nat
  letter : Char
deriving DecidableEq

/-- Draws consumed by `_generate_merchant` (lines 51-59): the category choice,
the uppercased 8-hex-digit uuid fragment, the faker company name and
`randint(1000, 9999)`. -/
structure MerchantDraw where
  categoryIdx : Fin 15
  uuidHex : String
  companyName : String
  mccNum : Nat
deriving DecidableEq

/-- All draws consumed by one call of `generate_transaction` (lines 61-139),
in source order.  Draws named `...Rand` model `random.random()` results in
`[0, 1)`; `uniformAmount` models the `random.uniform` result position in
`[0, 1]`; index draws model `random.choice` / `random.choices` selections. -/
structure TxDraws where
  typeIdx : Fin 5
  currencyIdx : Fin 7
  uniformAmount : ℚ
  withdrawalIdx : Fin 9
  accountReuseRand : ℚ
  accountPoolIdx : Nat
  newAccount : AccountIdDraw
  locCity : String
  locCountry : String
  locLat : ℚ
  locLon : ℚ
  merchantReuseRand : ℚ
  merchantPoolIdx : Nat
  newMerchant : MerchantDraw
  cardLastFour : Nat
  cardNetworkIdx : Fin 4
  cardTypeIdx : Fin 2
  statusIdx : Fin 3
  channelIdx : Fin 5
  deviceRand : ℚ
  deviceId : String
  ipRand : ℚ
  ipAddr : String
  txUuid : String
  txTimestamp : String
  recipientAccount : AccountIdDraw
  transferUuid : String
deriving DecidableEq

/-! ### FinancialDataGenerator -/

/-- Pool state of a `FinancialDataGenerator` instance (lines 44-45). -/
structure GenState where
  account_pool : List String
  merchant_pool : List Merchant
deriving DecidableEq

/-- Lines 47-49: `f"ACC-{random.randint(100000, 999999)}-{random.choice('ABC...XYZ')}"`
(source name `_generate_account_id`; the leading underscore is dropped). -/
def generate_account_id (d : AccountIdDraw) : String :=
  "ACC-" ++ toString d.num ++ "-" ++ String.mk [d.letter]

/-- Lines 51-59: `_generate_merchant` (leading underscore dropped). -/
def generate_merchant (d : MerchantDraw) : Merchant :=
  { merchant_id := "MER-" ++ d.uuidHex
  , merchant_name := d.companyName
  , merchant_category := MERCHANT_CATEGORIES.getD d.categoryIdx.val ""
  , mcc_code := toString d.mccNum }

/-- Constructor of `FinancialDataGenerator` (lines 41-45): pools seeded with
100 account ids and 50 merchants, one per initial draw. -/
def initGenState (ad : Nat → AccountIdDraw) (md : Nat → MerchantDraw) : GenState :=
  { account_pool := (List.range 100).map (fun i => generate_account_id (ad i))
  , merchant_pool := (List.range 50).map (fun i => generate_merchant (md i)) }

/-- Model of `random.uniform a b`: position draw `u ∈ [0, 1]` mapped affinely. -/
def uniform (a b u : ℚ) : ℚ := a + u * (b - a)

/-- Model of Python `round(x, 2)`: round to the nearest multiple of `1/100`
(the exact float tie-breaking rule is irrelevant to every claim here). -/
def round2 (x : ℚ) : ℚ := (round (x * 100) : ℤ) / 100

/-- Lines 66-76: the type-dependent amount. -/
def amountFor (t : String) (d : TxDraws) : ℚ :=
  if t = "purchase" then round2 (uniform 1 500 d.uniformAmount)
  else if t = "withdrawal" then round2 (WITHDRAWAL_DENOMS.getD d.withdrawalIdx.val 0)
  else if t = "transfer" then round2 (uniform 10 5000 d.uniformAmount)
  else if t = "deposit" then round2 (uniform 100 10000 d.uniformAmount)
  else round2 (uniform 5 200 d.uniformAmount)

/-- Lines 78-85: reuse a pooled account id with probability 0.8, otherwise
mint a new one, append it, and pop the front when the pool exceeds 200. -/
def pickAccount (pool : List String) (d : TxDraws) : String × List String :=
  if d.accountReuseRand < 4/5 then
    (pool.getD (d.accountPoolIdx % pool.length) "", pool)
  else
    let aid := generate_account_id d.newAccount
    let pool2 := pool ++ [aid]
    if pool2.length > 200 then (aid, pool2.drop 1) else (aid, pool2)

/-- Lines 95-105: merchant only for purchase/refund; reuse with probability
0.7, otherwise mint, append, and pop the front when the pool exceeds 100. -/
def pickMerchant (t : String) (pool : List Merchant) (d : TxDraws) :
    Option Merchant × List Merchant :=
  if t ∈ (["purchase", "refund"] : List String) then
    if d.merchantReuseRand < 7/10 then
      (some (pool.getD (d.merchantPoolIdx % pool.length) mdefault), pool)
    else
      let m := generate_merchant d.newMerchant
      let pool2 := pool ++ [m]
      if pool2.length > 100 then (some m, pool2.drop 1) else (some m, pool2)
  else (none, pool)

/-- Lines 107-114: card info only for card-based transaction types. -/
def cardFor (t : String) (d : TxDraws) : Option CardInfo :=
  if t ∈ (["purchase", "withdrawal", "refund"] : List String) then
    some { card_last_four := toString d.cardLastFour
         , card_network := CARD_NETWORKS.getD d.cardNetworkIdx.val ""
         , card_type := CARD_TYPES.getD d.cardTypeIdx.val "" }
  else none

/-- Lines 127-131: metadata; `device_id` present when `random.random() > 0.3`,
`ip_address` present when `random.random() > 0.4`. -/
def metadataFor (d : TxDraws) : Metadata :=
  { channel := CHANNELS.getD d.channelIdx.val ""
  , device_id := if d.deviceRand > 3/10 then some d.deviceId else none
  , ip_address := if d.ipRand > 2/5 then some d.ipAddr else none }

/-- Lines 61-139: `generate_transaction`, as a pure function of the pool state
and this call's draws; returns the record and the updated pools.  The
weighted `random.choices(STATUSES, weights=STATUS_WEIGHTS)[0]` of line 123 is
modelled by the abstract selection index `statusIdx` (the weights shape the
distribution of that index, not the value set). -/
def generate_transaction (st : GenState) (d : TxDraws) : Transaction × GenState :=
  let transaction_type := TRANSACTION_TYPES.getD d.typeIdx.val ""
  let currency := CURRENCIES.getD d.currencyIdx.val ""
  let amount := amountFor transaction_type d
  let acc := pickAccount st.account_pool d
  let location : Location :=
    { city := d.locCity, country := d.locCountry
    , latitude := d.locLat, longitude := d.locLon }
  let mer := pickMerchant transaction_type st.merchant_pool d
  let card_info := cardFor transaction_type d
  let transferPair : Option String × Option String :=
    if transaction_type = "transfer" then
      (some (generate_account_id d.recipientAccount),
       some ("TRF-" ++ d.transferUuid))
    else (none, none)
  ({ transaction_id := d.txUuid
   , timestamp := d.txTimestamp
   , account_id := acc.1
   , transaction_type := transaction_type
   , amount := amount
   , currency := currency
   , status := STATUSES.getD d.statusIdx.val ""
   , location := location
   , merchant := mer.1
   , card_info := card_info
   , metadata := metadataFor d
   , recipient_account_id := transferPair.1
   , transfer_reference := transferPair.2 },
   { account_pool := acc.2, merchant_pool := mer.2 })

/-- Repeated generation: `genIter ds st n` is the pool state after `n` calls
of `generate_transaction`, call `i` consuming draws `ds i`. -/
def genIter (ds : Nat → TxDraws) (st : GenState) : Nat → GenState
  | 0 => st
  | n + 1 => (generate_transaction (genIter ds st n) (ds n)).2

/-! ### KafkaTransactionProducer

The Kafka client is external; the driver's observable behaviour is the
sequence of calls it makes on the client, recorded as a trace of events.
`send_transaction` (lines 161-165) publishes with `key = transaction['account_id']`
and increments `message_count`; `stop` (lines 214-220) clears `running`,
then calls `flush()` and `close()`. -/

/-- One observable interaction with the Kafka producer sink. -/
inductive Event where
  | publish (key : String) (value : Transaction)
  | flush
  | close
deriving DecidableEq

def isPublish : Event → Bool
  | Event.publish _ _ => true
  | _ => false

def isFlush : Event → Bool
  | Event.flush => true
  | _ => false

def isClose : Event → Bool
  | Event.close => true
  | _ => false

/-- Sink events of one `stop()` call (lines 214-220): flush then close. -/
def stopEvents : List Event := [Event.flush, Event.close]

/-- External interruption scenario for `run`:
* `never` — no interruption;
* `keyboard k` — a `KeyboardInterrupt` is raised at the top of loop
  iteration `k` (Python's default SIGINT behaviour, and the way a test
  simulates cancellation); it is caught by the `except` of line 195 and the
  `finally` of line 197 runs `stop()`;
* `signal k` — SIGINT/SIGTERM arrives during iteration `k` while the
  handler installed by `main` (lines 263-269) is active: the handler runs
  `producer.stop()` then `sys.exit(0)`; the resulting `SystemExit` is NOT
  caught by `except KeyboardInterrupt`, so the `finally` of line 197 runs
  `stop()` a second time before the exception terminates the process. -/
inductive Cancel where
  | never
  | keyboard (iter : Nat)
  | signal (iter : Nat)
deriving DecidableEq

def isKeyboardAt : Cancel → Nat → Bool
  | Cancel.keyboard k, i => k == i
  | _, _ => false

def isSignalAt : Cancel → Nat → Bool
  | Cancel.signal k, i => k == i
  | _, _ => false

/-- The guard of line 183, `if max_messages and self.message_count >= max_messages`:
Python truthiness means `max_messages = 0` (and `None`) disable the check. -/
def maxReached (mm : Option Int) (count : Nat) : Bool :=
  match mm with
  | Option.none => false
  | some m => (m != 0) && (decide ((m : Int) ≤ (count : Int)))

/-- How the `while` loop of lines 182-193 was left. -/
inductive LoopExit where
  | limit
  | keyboard
  | signalExit
  | fuelOut
deriving DecidableEq

/-- The loop body of lines 182-193: check interruption (modelled at the top
of each iteration — records are generated and submitted atomically per
iteration), then the max-message guard, then generate, publish keyed by the
record's `account_id`, and increment `message_count`.  The `while self.running`
condition is true at every check in every modelled scenario: `run` sets the
flag on entry (line 175) and the only writers of `False` are the exits
themselves (`stop()` in the handler or after the loop), so it needs no
separate exit case.  Returns the sink events of the loop, the final generator
state, the final `message_count`, and how the loop exited. -/
def loop (ds : Nat → TxDraws) (mm : Option Int) (cancel : Cancel) :
    Nat → Nat → Nat → GenState → List Event × GenState × Nat × LoopExit
  | 0, _iter, count, st => ([], st, count, LoopExit.fuelOut)
  | fuel + 1, iter, count, st =>
    if isKeyboardAt cancel iter then ([], st, count, LoopExit.keyboard)
    else if isSignalAt cancel iter then ([], st, count, LoopExit.signalExit)
    else if maxReached mm count then ([], st, count, LoopExit.limit)
    else
      let p := generate_transaction st (ds iter)
      let r := loop ds mm cancel fuel (iter + 1) (count + 1) p.2
      (Event.publish p.1.account_id p.1 :: r.1, r.2.1, r.2.2.1, r.2.2.2)

/-- How a `run` call ended in the model. -/
inductive ExitKind where
  | completed
  | processExit
  | divByZero
  | fuelBound
deriving DecidableEq

/-- Observable outcome of one `run` call: sink-event trace, generator pool
state, the `running` flag, `message_count`, and the kind of exit. -/
structure RunOut where
  events : List Event
  gen : GenState
  running : Bool
  count : Nat
  exit : ExitKind
deriving DecidableEq

/-- Lines 167-198: `run(rate, max_messages)`.
Line 175 sets `self.running = True`; line 176 computes `interval = 1.0 / rate`,
which raises an uncaught `ZeroDivisionError` when `rate == 0` — the
`try`/`finally` only begins at line 181, so no sink call happens on that path.
Otherwise the loop runs; on a limit break or a caught `KeyboardInterrupt`
the `finally` performs one `stop()`; on the installed-signal path the handler
performs `stop()` and `sys.exit(0)`, after which the `finally` performs a
second `stop()` and `SystemExit` ends the process. -/
def run (ds : Nat → TxDraws) (rate : ℚ) (mm : Option Int) (cancel : Cancel)
    (fuel : Nat) (st : GenState) (count0 : Nat) : RunOut :=
  if rate = 0 then
    { events := [], gen := st, running := true, count := count0
    , exit := ExitKind.divByZero }
  else
    let r := loop ds mm cancel fuel 0 count0 st
    match r.2.2.2 with
    | LoopExit.limit =>
      { events := r.1 ++ stopEvents, gen := r.2.1, running := false
      , count := r.2.2.1, exit := ExitKind.completed }
    | LoopExit.keyboard =>
      { events := r.1 ++ stopEvents, gen := r.2.1, running := false
      , count := r.2.2.1, exit := ExitKind.completed }
    | LoopExit.signalExit =>
      { events := r.1 ++ stopEvents ++ stopEvents, gen := r.2.1, running := false
      , count := r.2.2.1, exit := ExitKind.processExit }
    | LoopExit.fuelOut =>
      { events := r.1, gen := r.2.1, running := true
      , count := r.2.2.1, exit := ExitKind.fuelBound }

/-- The `for i in range(count)` loop of lines 204-209, starting at index `i`:
generate, publish keyed by the record's `account_id`, count up. -/
def burstLoop (ds : Nat → TxDraws) : Nat → Nat → Nat → GenState →
    List Event × GenState × Nat
  | 0, _i, count, st => ([], st, count)
  | n + 1, i, count, st =>
    let p := generate_transaction st (ds i)
    let r := burstLoop ds n (i + 1) (count + 1) p.2
    (Event.publish p.1.account_id p.1 :: r.1, r.2.1, r.2.2)

/-- Lines 200-212: `run_burst(count)` — the send loop followed by exactly one
`self.producer.flush()`; `stop()` (and hence `close()`) is never called. -/
def run_burst (ds : Nat → TxDraws) (n : Nat) (st : GenState) (count0 : Nat) :
    List Event × GenState × Nat :=
  let r := burstLoop ds n 0 count0 st
  (r.1 ++ [Event.flush], r.2.1, r.2.2)

/-! ### Concrete sample values (used to instantiate witnesses) -/

def a0 : AccountIdDraw := ⟨123456, 'A'⟩

def md0 : MerchantDraw := ⟨⟨0, by decide⟩, "1A2B3C4D", "Acme Corp", 1234⟩

/-- A fixed draw record: purchase type, mid-range uniform draw, pool reuse. -/
def d0 : TxDraws :=
  { typeIdx := ⟨0, by decide⟩
  , currencyIdx := ⟨0, by decide⟩
  , uniformAmount := 1/2
  , withdrawalIdx := ⟨0, by decide⟩
  , accountReuseRand := 0
  , accountPoolIdx := 0
  , newAccount := a0
  , locCity := "Zurich"
  , locCountry := "CH"
  , locLat := 47
  , locLon := 8
  , merchantReuseRand := 0
  , merchantPoolIdx := 0
  , newMerchant := md0
  , cardLastFour := 1234
  , cardNetworkIdx := ⟨0, by decide⟩
  , cardTypeIdx := ⟨0, by decide⟩
  , statusIdx := ⟨0, by decide⟩
  , channelIdx := ⟨0, by decide⟩
  , deviceRand := 1/2
  , deviceId := "abcdef0123456789"
  , ipRand := 1/2
  , ipAddr := "10.0.0.1"
  , txUuid := "uuid-1"
  , txTimestamp := "2026-01-01T00:00:00+00:00"
  , recipientAccount := a0
  , transferUuid := "ABCDEF0123" }

def st0 : GenState := ⟨["ACC-100000-A", "ACC-100001-B"], [generate_merchant md0]⟩

/-! ### Helper lemmas on rounding and uniform draws -/

lemma round_mono_q {x y : ℚ} (h : x ≤ y) : round x ≤ round y := by
  rw [round_eq, round_eq]
  exact Int.floor_le_floor (by linarith)

lemma round2_mono {x y : ℚ} (h : x ≤ y) : round2 x ≤ round2 y := by
  unfold round2
  have h1 : round (x * 100) ≤ round (y * 100) := round_mono_q (by linarith)
  have h2 : ((round (x * 100) : ℤ) : ℚ) ≤ ((round (y * 100) : ℤ) : ℚ) := by
    exact_mod_cast h1
  linarith

lemma round2_int (k : ℤ) : round2 ((k : ℚ)) = k := by
  unfold round2
  rw [show ((k : ℚ)) * 100 = (((k * 100 : ℤ) : ℚ)) by push_cast; ring, round_intCast]
  push_cast
  field_simp

lemma round2_bounds {lo hi : ℤ} {x : ℚ} (h1 : (lo : ℚ) ≤ x) (h2 : x ≤ (hi : ℚ)) :
    (lo : ℚ) ≤ round2 x ∧ round2 x ≤ (hi : ℚ) := by
  constructor
  · have h := round2_mono h1
    rwa [round2_int] at h
  · have h := round2_mono h2
    rwa [round2_int] at h

lemma round2_cents (x : ℚ) : ∃ k : ℤ, round2 x * 100 = (k : ℚ) := by
  refine ⟨round (x * 100), ?_⟩
  unfold round2
  field_simp

lemma uniform_bounds {a b u : ℚ} (hab : a ≤ b) (h0 : 0 ≤ u) (h1 : u ≤ 1) :
    a ≤ uniform a b u ∧ uniform a b u ≤ b := by
  unfold uniform
  constructor <;> nlinarith

/-! ### Helper lemmas on the pools -/

lemma getD_mod_mem (pool : List String) (i : Nat) (h : pool ≠ []) :
    pool.getD (i % pool.length) "" ∈ pool := by
  have hlen : 0 < pool.length := List.length_pos.mpr h
  have hm : i % pool.length < pool.length := Nat.mod_lt _ hlen
  rw [List.getD_eq_getElem _ _ hm]
  exact List.getElem_mem hm

lemma generate_account_id_ne (d : AccountIdDraw) : generate_account_id d ≠ "" := by
  intro h
  have hl := congrArg String.length h
  simp [generate_account_id, String.length_append] at hl

/-- Pool facts needed for publish keys: nonempty, every entry a truthy string. -/
def poolGood (st : GenState) : Prop :=
  st.account_pool ≠ [] ∧ ∀ a ∈ st.account_pool, a ≠ ""

instance (st : GenState) : Decidable (poolGood st) := by
  unfold poolGood
  infer_instance

lemma pickAccount_good {pool : List String} (d : TxDraws)
    (h1 : pool ≠ []) (h2 : ∀ a ∈ pool, a ≠ "") :
    (pickAccount pool d).1 ≠ "" ∧ (pickAccount pool d).2 ≠ [] ∧
      ∀ a ∈ (pickAccount pool d).2, a ≠ "" := by
  have hp : 0 < pool.length := List.length_pos.mpr h1
  simp only [pickAccount]
  split_ifs with hr hl
  · exact ⟨h2 _ (getD_mod_mem pool d.accountPoolIdx h1), h1, h2⟩
  · refine ⟨generate_account_id_ne _, ?_, ?_⟩
    · have hlen : ((pool ++ [generate_account_id d.newAccount]).drop 1).length
          = pool.length := by simp
      intro hnil
      have hnil2 : (pool ++ [generate_account_id d.newAccount]).drop 1 = [] := hnil
      rw [hnil2] at hlen
      simp at hlen
      omega
    · intro a ha
      have ha2 := List.mem_of_mem_drop ha
      rcases List.mem_append.mp ha2 with h | h
      · exact h2 _ h
      · simp at h
        subst h
        exact generate_account_id_ne _
  · refine ⟨generate_account_id_ne _, by simp, ?_⟩
    intro a ha
    rcases List.mem_append.mp ha with h | h
    · exact h2 _ h
    · simp at h
      subst h
      exact generate_account_id_ne _

lemma round2_ofNat (n : ℕ) : round2 ((n : ℚ)) = (n : ℚ) := by
  have h := round2_int (n : ℤ)
  push_cast at h
  exact h

lemma round2_denom_mem : ∀ n : Nat, n < 9 →
    round2 (WITHDRAWAL_DENOMS.getD n 0) ∈ WITHDRAWAL_DENOMS := by
  intro n hn
  interval_cases n <;>
    simp only [WITHDRAWAL_DENOMS, List.getD_cons_zero, List.getD_cons_succ] <;>
    norm_num [show round2 ((20:ℚ)) = 20 by exact_mod_cast round2_ofNat 20,
      show round2 ((40:ℚ)) = 40 by exact_mod_cast round2_ofNat 40,
      show round2 ((50:ℚ)) = 50 by exact_mod_cast round2_ofNat 50,
      show round2 ((60:ℚ)) = 60 by exact_mod_cast round2_ofNat 60,
      show round2 ((80:ℚ)) = 80 by exact_mod_cast round2_ofNat 80,
      show round2 ((100:ℚ)) = 100 by exact_mod_cast round2_ofNat 100,
      show round2 ((200:ℚ)) = 200 by exact_mod_cast round2_ofNat 200,
      show round2 ((300:ℚ)) = 300 by exact_mod_cast round2_ofNat 300,
      show round2 ((500:ℚ)) = 500 by exact_mod_cast round2_ofNat 500]

/-- C2: for every record returned by `generate_transaction` (with the
`random.uniform` position draw in `[0, 1]`), the amount lies within the
bounds fixed by its `transaction_type` — purchase in `[1, 500]`, withdrawal
in the set `{20,40,50,60,80,100,200,300,500}`, transfer in `[10, 5000]`,
deposit in `[100, 10000]`, refund in `[5, 200]` — and `amount * 100` is an
integer, i.e. the amount has at most 2 decimal digits. -/
theorem generate_transaction_amount_bounds (st : GenState) (d : TxDraws)
    (h0 : 0 ≤ d.uniformAmount) (h1 : d.uniformAmount ≤ 1) :
    ((generate_transaction st d).1.transaction_type = "purchase" →
        1 ≤ (generate_transaction st d).1.amount ∧
        (generate_transaction st d).1.amount ≤ 500) ∧
    ((generate_transaction st d).1.transaction_type = "withdrawal" →
        (generate_transaction st d).1.amount ∈ WITHDRAWAL_DENOMS) ∧
    ((generate_transaction st d).1.transaction_type = "transfer" →
        10 ≤ (generate_transaction st d).1.amount ∧
        (generate_transaction st d).1.amount ≤ 5000) ∧
    ((generate_transaction st d).1.transaction_type = "deposit" →
        100 ≤ (generate_transaction st d).1.amount ∧
        (generate_transaction st d).1.amount ≤ 10000) ∧
    ((generate_transaction st d).1.transaction_type = "refund" →
        5 ≤ (generate_transaction st d).1.amount ∧
        (generate_transaction st d).1.amount ≤ 200) ∧
    (∃ k : ℤ, (generate_transaction st d).1.amount * 100 = (k : ℚ)) := by
  have ht : (generate_transaction st d).1.transaction_type
      = TRANSACTION_TYPES.getD d.typeIdx.val "" := rfl
  have ha : (generate_transaction st d).1.amount
      = amountFor (TRANSACTION_TYPES.getD d.typeIdx.val "") d := rfl
  refine ⟨?_, ?_, ?_, ?_, ?_, ?_⟩
  · intro h
    rw [ht] at h
    rw [ha, h, show amountFor "purchase" d = round2 (uniform 1 500 d.uniformAmount) from rfl]
    have hu := uniform_bounds (by norm_num : (1:ℚ) ≤ 500) h0 h1
    have hb := @round2_bounds 1 500 _ (by exact_mod_cast hu.1) (by exact_mod_cast hu.2)
    exact ⟨by exact_mod_cast hb.1, by exact_mod_cast hb.2⟩
  · intro h
    rw [ht] at h
    rw [ha, h, show amountFor "withdrawal" d
      = round2 (WITHDRAWAL_DENOMS.getD d.withdrawalIdx.val 0) from rfl]
    exact round2_denom_mem d.withdrawalIdx.val d.withdrawalIdx.isLt
  · intro h
    rw [ht] at h
    rw [ha, h, show amountFor "transfer" d = round2 (uniform 10 5000 d.uniformAmount) from rfl]
    have hu := uniform_bounds (by norm_num : (10:ℚ) ≤ 5000) h0 h1
    have hb := @round2_bounds 10 5000 _ (by exact_mod_cast hu.1) (by exact_mod_cast hu.2)
    exact ⟨by exact_mod_cast hb.1, by exact_mod_cast hb.2⟩
  · intro h
    rw [ht] at h
    rw [ha, h, show amountFor "deposit" d = round2 (uniform 100 10000 d.uniformAmount) from rfl]
    have hu := uniform_bounds (by norm_num : (100:ℚ) ≤ 10000) h0 h1
    have hb := @round2_bounds 100 10000 _ (by exact_mod_cast hu.1) (by exact_mod_cast hu.2)
    exact ⟨by exact_mod_cast hb.1, by exact_mod_cast hb.2⟩
  · intro h
    rw [ht] at h
    rw [ha, h, show amountFor "refund" d = round2 (uniform 5 200 d.uniformAmount) from rfl]
    have hu := uniform_bounds (by norm_num : (5:ℚ) ≤ 200) h0 h1
    have hb := @round2_bounds 5 200 _ (by exact_mod_cast hu.1) (by exact_mod_cast hu.2)
    exact ⟨by exact_mod_cast hb.1, by exact_mod_cast hb.2⟩
  · rw [ha]
    unfold amountFor
    split_ifs <;> exact round2_cents _

/-- Witness for C2 at the concrete state `st0` and draws `d0`. -/
theorem generate_transaction_amount_bounds_witness :
    (0 ≤ d0.uniformAmount ∧ d0.uniformAmount ≤ 1) ∧
    (((generate_transaction st0 d0).1.transaction_type = "purchase" →
        1 ≤ (generate_transaction st0 d0).1.amount ∧
        (generate_transaction st0 d0).1.amount ≤ 500) ∧
    ((generate_transaction st0 d0).1.transaction_type = "withdrawal" →
        (generate_transaction st0 d0).1.amount ∈ WITHDRAWAL_DENOMS) ∧
    ((generate_transaction st0 d0).1.transaction_type = "transfer" →
        10 ≤ (generate_transaction st0 d0).1.amount ∧
        (generate_transaction st0 d0).1.amount ≤ 5000) ∧
    ((generate_transaction st0 d0).1.transaction_type = "deposit" →
        100 ≤ (generate_transaction st0 d0).1.amount ∧
        (generate_transaction st0 d0).1.amount ≤ 10000) ∧
    ((generate_transaction st0 d0).1.transaction_type = "refund" →
        5 ≤ (generate_transaction st0 d0).1.amount ∧
        (generate_transaction st0 d0).1.amount ≤ 200) ∧
    (∃ k : ℤ, (generate_transaction st0 d0).1.amount * 100 = (k : ℚ))) :=
  ⟨⟨(by norm_num : (0:ℚ) ≤ 1/2), (by norm_num : (1:ℚ)/2 ≤ 1)⟩,
   generate_transaction_amount_bounds st0 d0
     (by norm_num : (0:ℚ) ≤ 1/2) (by norm_num : (1:ℚ)/2 ≤ 1)⟩

lemma pickMerchant_fst (t : String) (pool : List Merchant) (d : TxDraws) :
    (pickMerchant t pool d).1
      = if t ∈ (["purchase", "refund"] : List String) then
          some (if d.merchantReuseRand < 7/10
                then pool.getD (d.merchantPoolIdx % pool.length) mdefault
                else generate_merchant d.newMerchant)
        else none := by
  simp only [pickMerchant]
  split_ifs <;> simp_all [apply_ite Prod.fst]

lemma mem_pr_iff (t : String) :
    t ∈ (["purchase", "refund"] : List String) ↔ t = "purchase" ∨ t = "refund" := by
  simp [List.mem_cons, List.not_mem_nil]

lemma mem_pwr_iff (t : String) :
    t ∈ (["purchase", "withdrawal", "refund"] : List String) ↔
      t = "purchase" ∨ t = "withdrawal" ∨ t = "refund" := by
  simp [List.mem_cons, List.not_mem_nil]

lemma cardFor_isSome (t : String) (d : TxDraws) :
    (cardFor t d).isSome = true ↔ t ∈ (["purchase", "withdrawal", "refund"] : List String) := by
  unfold cardFor
  split_ifs with h <;> simp [h]

/-- C4: for every generated record, `merchant` is non-null iff the type is
purchase or refund; `card_info` is non-null iff the type is purchase,
withdrawal, or refund; `recipient_account_id` and `transfer_reference` are
present iff the type is transfer; and the recipient account id is freshly
minted from this call's recipient draw — it does not depend on the account
pool at all (same value for any two pool states). -/
theorem optional_fields_by_type (st st2 : GenState) (d : TxDraws) :
    ((generate_transaction st d).1.merchant.isSome = true ↔
        (generate_transaction st d).1.transaction_type = "purchase" ∨
        (generate_transaction st d).1.transaction_type = "refund") ∧
    ((generate_transaction st d).1.card_info.isSome = true ↔
        ((generate_transaction st d).1.transaction_type = "purchase" ∨
         (generate_transaction st d).1.transaction_type = "withdrawal" ∨
         (generate_transaction st d).1.transaction_type = "refund")) ∧
    (((generate_transaction st d).1.recipient_account_id.isSome = true ∧
      (generate_transaction st d).1.transfer_reference.isSome = true) ↔
        (generate_transaction st d).1.transaction_type = "transfer") ∧
    ((generate_transaction st d).1.transaction_type = "transfer" →
        (generate_transaction st d).1.recipient_account_id
          = some (generate_account_id d.recipientAccount)) ∧
    (generate_transaction st d).1.recipient_account_id
        = (generate_transaction st2 d).1.recipient_account_id := by
  refine ⟨?_, ?_, ?_, ?_, ?_⟩
  · rw [show (generate_transaction st d).1.merchant
        = (pickMerchant ((generate_transaction st d).1.transaction_type)
            st.merchant_pool d).1 from rfl, pickMerchant_fst]
    by_cases h : (generate_transaction st d).1.transaction_type = "purchase" ∨
        (generate_transaction st d).1.transaction_type = "refund"
    · rw [if_pos ((mem_pr_iff _).mpr h)]
      exact ⟨fun _ => h, fun _ => rfl⟩
    · rw [if_neg (fun hm => h ((mem_pr_iff _).mp hm))]
      constructor
      · intro hh
        exact absurd hh (by simp)
      · intro hh
        exact absurd hh h
  · rw [show (generate_transaction st d).1.card_info
        = cardFor ((generate_transaction st d).1.transaction_type) d from rfl,
      cardFor_isSome, mem_pwr_iff]
  · rw [show (generate_transaction st d).1.recipient_account_id
        = (if (generate_transaction st d).1.transaction_type = "transfer" then
            (some (generate_account_id d.recipientAccount),
             some ("TRF-" ++ d.transferUuid))
          else ((none : Option String), (none : Option String))).1 from rfl,
      show (generate_transaction st d).1.transfer_reference
        = (if (generate_transaction st d).1.transaction_type = "transfer" then
            (some (generate_account_id d.recipientAccount),
             some ("TRF-" ++ d.transferUuid))
          else ((none : Option String), (none : Option String))).2 from rfl]
    by_cases h : (generate_transaction st d).1.transaction_type = "transfer"
    · rw [if_pos h]
      exact ⟨fun _ => h, fun _ => ⟨rfl, rfl⟩⟩
    · rw [if_neg h]
      constructor
      · intro hh
        exact absurd hh.1 (by simp)
      · intro hh
        exact absurd hh h
  · intro h
    rw [show (generate_transaction st d).1.recipient_account_id
        = (if (generate_transaction st d).1.transaction_type = "transfer" then
            (some (generate_account_id d.recipientAccount),
             some ("TRF-" ++ d.transferUuid))
          else ((none : Option String), (none : Option String))).1 from rfl, if_pos h]
  · rfl

/-- C7: if the account-reuse draw is below 0.8 the account id is the pool
entry selected by the index draw (in particular a member of the current
pool) and the account pool is unchanged; otherwise the account id is the
freshly minted one, it is appended at the back, and the front entry is
evicted exactly when the appended pool exceeds 200 entries. -/
theorem account_selection_spec (st : GenState) (d : TxDraws)
    (hne : st.account_pool ≠ []) :
    (d.accountReuseRand < 4/5 →
        (generate_transaction st d).1.account_id
            = st.account_pool.getD (d.accountPoolIdx % st.account_pool.length) "" ∧
        (generate_transaction st d).1.account_id ∈ st.account_pool ∧
        (generate_transaction st d).2.account_pool = st.account_pool) ∧
    (¬ d.accountReuseRand < 4/5 →
        (generate_transaction st d).1.account_id = generate_account_id d.newAccount ∧
        (generate_transaction st d).2.account_pool
            = (if (st.account_pool ++ [generate_account_id d.newAccount]).length > 200
               then (st.account_pool ++ [generate_account_id d.newAccount]).drop 1
               else st.account_pool ++ [generate_account_id d.newAccount])) := by
  have hid : (generate_transaction st d).1.account_id = (pickAccount st.account_pool d).1 := rfl
  have hpool : (generate_transaction st d).2.account_pool = (pickAccount st.account_pool d).2 := rfl
  constructor
  · intro h
    rw [hid, hpool]
    simp only [pickAccount]
    rw [if_pos h]
    exact ⟨rfl, getD_mod_mem _ _ hne, rfl⟩
  · intro h
    rw [hid, hpool]
    simp only [pickAccount]
    rw [if_neg h]
    constructor
    · simp [apply_ite Prod.fst]
    · simp [apply_ite Prod.snd]

/-- Witness for C7 at the concrete state `st0` and draws `d0`. -/
theorem account_selection_spec_witness :
    st0.account_pool ≠ [] ∧
    ((d0.accountReuseRand < 4/5 →
        (generate_transaction st0 d0).1.account_id
            = st0.account_pool.getD (d0.accountPoolIdx % st0.account_pool.length) "" ∧
        (generate_transaction st0 d0).1.account_id ∈ st0.account_pool ∧
        (generate_transaction st0 d0).2.account_pool = st0.account_pool) ∧
    (¬ d0.accountReuseRand < 4/5 →
        (generate_transaction st0 d0).1.account_id = generate_account_id d0.newAccount ∧
        (generate_transaction st0 d0).2.account_pool
            = (if (st0.account_pool ++ [generate_account_id d0.newAccount]).length > 200
               then (st0.account_pool ++ [generate_account_id d0.newAccount]).drop 1
               else st0.account_pool ++ [generate_account_id d0.newAccount]))) :=
  ⟨by decide, account_selection_spec st0 d0 (by decide)⟩

lemma pickAccount_snd_shape (pool : List String) (d : TxDraws) :
    (pickAccount pool d).2 = pool ∨
    ∃ a, ((pool ++ [a]).length ≤ 200 ∧ (pickAccount pool d).2 = pool ++ [a]) ∨
         ((pool ++ [a]).length > 200 ∧ (pickAccount pool d).2 = (pool ++ [a]).drop 1) := by
  simp only [pickAccount]
  split_ifs with h1 h2
  · exact Or.inl rfl
  · exact Or.inr ⟨generate_account_id d.newAccount, Or.inr ⟨h2, rfl⟩⟩
  · exact Or.inr ⟨generate_account_id d.newAccount, Or.inl ⟨by omega, rfl⟩⟩

lemma pickMerchant_snd_shape (t : String) (pool : List Merchant) (d : TxDraws) :
    (pickMerchant t pool d).2 = pool ∨
    ∃ m, ((pool ++ [m]).length ≤ 100 ∧ (pickMerchant t pool d).2 = pool ++ [m]) ∨
         ((pool ++ [m]).length > 100 ∧ (pickMerchant t pool d).2 = (pool ++ [m]).drop 1) := by
  simp only [pickMerchant]
  split_ifs with h1 h2 h3
  · exact Or.inl rfl
  · exact Or.inr ⟨generate_merchant d.newMerchant, Or.inr ⟨h3, rfl⟩⟩
  · exact Or.inr ⟨generate_merchant d.newMerchant, Or.inl ⟨by omega, rfl⟩⟩
  · exact Or.inl rfl

lemma pickAccount_len {pool : List String} {d : TxDraws} (h : pool.length ≤ 200) :
    ((pickAccount pool d).2).length ≤ 200 := by
  rcases pickAccount_snd_shape pool d with h0 | ⟨a, h0 | h0⟩
  · rw [h0]
    exact h
  · rw [h0.2]
    exact h0.1
  · rw [h0.2]
    simp
    omega

lemma pickMerchant_len {t : String} {pool : List Merchant} {d : TxDraws}
    (h : pool.length ≤ 100) : ((pickMerchant t pool d).2).length ≤ 100 := by
  rcases pickMerchant_snd_shape t pool d with h0 | ⟨m, h0 | h0⟩
  · rw [h0]
    exact h
  · rw [h0.2]
    exact h0.1
  · rw [h0.2]
    simp
    omega

lemma genIter_pool_len (ad : Nat → AccountIdDraw) (md : Nat → MerchantDraw)
    (ds : Nat → TxDraws) : ∀ n : Nat,
    (genIter ds (initGenState ad md) n).account_pool.length ≤ 200 ∧
    (genIter ds (initGenState ad md) n).merchant_pool.length ≤ 100 := by
  intro n
  induction n with
  | zero => simp [genIter, initGenState]
  | succ n ih =>
    constructor
    · rw [show (genIter ds (initGenState ad md) (n+1)).account_pool
          = (pickAccount (genIter ds (initGenState ad md) n).account_pool (ds n)).2 from rfl]
      exact pickAccount_len ih.1
    · rw [show (genIter ds (initGenState ad md) (n+1)).merchant_pool
          = (pickMerchant (TRANSACTION_TYPES.getD (ds n).typeIdx.val "")
              (genIter ds (initGenState ad md) n).merchant_pool (ds n)).2 from rfl]
      exact pickMerchant_len ih.2

/-- C3: a generator constructed with 100 account-pool entries and 50
merchant-pool entries keeps, after every generation step, at most 200
account-pool entries and at most 100 merchant-pool entries; each step leaves
a pool unchanged or appends one new entry at the back, evicting exactly the
front entry when the appended pool exceeds its ceiling. -/
theorem pool_bounds_invariant (ad : Nat → AccountIdDraw) (md : Nat → MerchantDraw)
    (ds : Nat → TxDraws) :
    (initGenState ad md).account_pool.length = 100 ∧
    (initGenState ad md).merchant_pool.length = 50 ∧
    (∀ n : Nat, (genIter ds (initGenState ad md) n).account_pool.length ≤ 200 ∧
          (genIter ds (initGenState ad md) n).merchant_pool.length ≤ 100) ∧
    (∀ st : GenState, ∀ d : TxDraws,
      ((generate_transaction st d).2.account_pool = st.account_pool ∨
       ∃ a, ((st.account_pool ++ [a]).length ≤ 200 ∧
              (generate_transaction st d).2.account_pool = st.account_pool ++ [a]) ∨
            ((st.account_pool ++ [a]).length > 200 ∧
              (generate_transaction st d).2.account_pool = (st.account_pool ++ [a]).drop 1)) ∧
      ((generate_transaction st d).2.merchant_pool = st.merchant_pool ∨
       ∃ m, ((st.merchant_pool ++ [m]).length ≤ 100 ∧
              (generate_transaction st d).2.merchant_pool = st.merchant_pool ++ [m]) ∨
            ((st.merchant_pool ++ [m]).length > 100 ∧
              (generate_transaction st d).2.merchant_pool = (st.merchant_pool ++ [m]).drop 1))) := by
  refine ⟨by simp [initGenState], by simp [initGenState], genIter_pool_len ad md ds, ?_⟩
  intro st d
  constructor
  · exact pickAccount_snd_shape st.account_pool d
  · exact pickMerchant_snd_shape (TRANSACTION_TYPES.getD d.typeIdx.val "") st.merchant_pool d

/-- C9: calling `run` with `rate = 0` raises `ZeroDivisionError` at the
`interval = 1.0 / rate` computation: the running flag has been set but no
record is generated (pool state unchanged), nothing is published, and no
sink call at all — not even flush/close — happens, since the `try`/`finally`
has not been entered yet. -/
theorem run_rate_zero_div (ds : Nat → TxDraws) (mm : Option Int) (cancel : Cancel)
    (fuel : Nat) (st : GenState) (count0 : Nat) :
    run ds 0 mm cancel fuel st count0
      = { events := [], gen := st, running := true, count := count0
        , exit := ExitKind.divByZero } := by
  simp [run]

lemma burstLoop_counts (ds : Nat → TxDraws) : ∀ (n i count : Nat) (st : GenState),
    ((burstLoop ds n i count st).1).countP isPublish = n ∧
    ((burstLoop ds n i count st).1).countP isFlush = 0 ∧
    ((burstLoop ds n i count st).1).countP isClose = 0 ∧
    (burstLoop ds n i count st).2.2 = count + n := by
  intro n
  induction n with
  | zero =>
    intro i count st
    simp [burstLoop]
  | succ n ih =>
    intro i count st
    have h := ih (i + 1) (count + 1) ((generate_transaction st (ds i)).2)
    simp only [burstLoop, List.countP_cons]
    refine ⟨?_, ?_, ?_, ?_⟩
    · simp [h.1, isPublish]
    · simp [h.2.1, isFlush]
    · simp [h.2.2.1, isClose]
    · rw [h.2.2.2]
      omega

/-- C10: `run_burst` never calls `close` on the sink: for every count `n` its
trace has zero close events and exactly one flush (after `n` publishes) —
releasing the connection is only done by `stop`, which `run_burst` does not
call. -/
theorem run_burst_never_close (ds : Nat → TxDraws) (n : Nat) (st : GenState) (count0 : Nat) :
    ((run_burst ds n st count0).1).countP isClose = 0 ∧
    ((run_burst ds n st count0).1).countP isFlush = 1 ∧
    ((run_burst ds n st count0).1).countP isPublish = n := by
  have h := burstLoop_counts ds n 0 count0 st
  simp [run_burst, List.countP_append, h.1, h.2.1, h.2.2.1, isFlush, isClose, isPublish]

lemma maxReached_some_zero (count : Nat) : maxReached (some 0) count = false := by
  simp [maxReached]

lemma loop_some_zero (ds : Nat → TxDraws) (cancel : Cancel) :
    ∀ (fuel iter count : Nat) (st : GenState),
    loop ds (some 0) cancel fuel iter count st
      = loop ds Option.none cancel fuel iter count st := by
  intro fuel
  induction fuel with
  | zero =>
    intro iter count st
    rfl
  | succ fuel ih =>
    intro iter count st
    simp only [loop, maxReached_some_zero, show maxReached Option.none count = false from rfl]
    split_ifs <;> simp [ih]

/-- C8: `run` with `max_messages = 0` behaves exactly as if no maximum were
set: the guard `if max_messages and count >= max_messages` tests truthiness,
so it never fires for `0`, and the whole run is event-for-event identical to
a run with `max_messages = None` — it does not stop immediately with zero
publishes. -/
theorem run_max_zero_unlimited (ds : Nat → TxDraws) (rate : ℚ) (cancel : Cancel)
    (fuel : Nat) (st : GenState) (count0 : Nat) :
    (∀ count : Nat, maxReached (some 0) count = false) ∧
    run ds rate (some 0) cancel fuel st count0
      = run ds rate Option.none cancel fuel st count0 := by
  refine ⟨maxReached_some_zero, ?_⟩
  simp only [run, loop_some_zero]

def rateRun (ds : Nat → TxDraws) : Nat → Nat → GenState → List Event × GenState
  | 0, _iter, st => ([], st)
  | k + 1, iter, st =>
    let p := generate_transaction st (ds iter)
    let r := rateRun ds k (iter + 1) p.2
    (Event.publish p.1.account_id p.1 :: r.1, r.2)

lemma maxReached_nat_true {m count : Nat} (hm : 0 < m) (h : m ≤ count) :
    maxReached (some ((m : Nat) : Int)) count = true := by
  simp [maxReached]
  omega

lemma maxReached_nat_false {m count : Nat} (h : count < m) :
    maxReached (some ((m : Nat) : Int)) count = false := by
  simp [maxReached]
  omega

lemma loop_limit_eq (ds : Nat → TxDraws) (mi : Int) (m : Nat) (hmi : mi = (m : Int))
    (hm : 0 < m) :
    ∀ (fuel count iter : Nat) (st : GenState), count ≤ m → m - count < fuel →
    loop ds (some mi) Cancel.never fuel iter count st
      = ((rateRun ds (m - count) iter st).1, (rateRun ds (m - count) iter st).2,
         m, LoopExit.limit) := by
  subst hmi
  intro fuel
  induction fuel with
  | zero =>
    intro count iter st h1 h2
    omega
  | succ fuel ih =>
    intro count iter st h1 h2
    by_cases hc : m ≤ count
    · have hcm : count = m := le_antisymm h1 hc
      subst hcm
      simp only [loop, isKeyboardAt, isSignalAt]
      rw [maxReached_nat_true hm (le_refl _)]
      simp [Nat.sub_self, rateRun]
    · push_neg at hc
      have hstep : m - count = (m - (count + 1)) + 1 := by omega
      simp only [loop, isKeyboardAt, isSignalAt]
      rw [maxReached_nat_false hc]
      simp only [Bool.false_eq_true, if_false]
      rw [ih (count + 1) (iter + 1) ((generate_transaction st (ds iter)).2)
        (by omega) (by omega), hstep]
      simp [rateRun]

lemma rateRun_spec (ds : Nat → TxDraws) : ∀ (k iter : Nat) (st : GenState),
    ((rateRun ds k iter st).1).length = k ∧
    ∀ e ∈ (rateRun ds k iter st).1, ∃ tx : Transaction, e = Event.publish tx.account_id tx := by
  intro k
  induction k with
  | zero =>
    intro iter st
    simp [rateRun]
  | succ k ih =>
    intro iter st
    have h := ih (iter + 1) ((generate_transaction st (ds iter)).2)
    simp only [rateRun]
    constructor
    · simp [h.1]
    · intro e he
      simp only [List.mem_cons] at he
      rcases he with he | he
      · exact ⟨(generate_transaction st (ds iter)).1, he⟩
      · exact h.2 e he

lemma rateRun_countP_pub (ds : Nat → TxDraws) (k iter : Nat) (st : GenState) :
    ((rateRun ds k iter st).1).countP isPublish = k ∧
    ((rateRun ds k iter st).1).countP isFlush = 0 ∧
    ((rateRun ds k iter st).1).countP isClose = 0 := by
  have h := rateRun_spec ds k iter st
  refine ⟨?_, ?_, ?_⟩
  · have hc : ((rateRun ds k iter st).1).countP isPublish
        = ((rateRun ds k iter st).1).length := by
      apply List.countP_eq_length.mpr
      intro e he
      rcases h.2 e he with ⟨tx, rfl⟩
      rfl
    rw [hc, h.1]
  · apply List.countP_eq_zero.mpr
    intro e he
    rcases h.2 e he with ⟨tx, rfl⟩
    simp [isFlush]
  · apply List.countP_eq_zero.mpr
    intro e he
    rcases h.2 e he with ⟨tx, rfl⟩
    simp [isClose]

/-- C5: `run` with `rate = 10`, `max_messages = 20`, a fresh counter `0`, an
error-free sink and no cancellation terminates with exactly 20 publish
events, each keyed by the published record's `account_id`, followed by
exactly one flush and one close (the single `stop()` in the `finally`). -/
theorem run_rate10_max20_spec (ds : Nat → TxDraws) (st : GenState) (fuel : Nat)
    (hf : 20 < fuel) :
    (run ds 10 (some 20) Cancel.never fuel st 0).exit = ExitKind.completed ∧
    (run ds 10 (some 20) Cancel.never fuel st 0).count = 20 ∧
    ((run ds 10 (some 20) Cancel.never fuel st 0).events).countP isPublish = 20 ∧
    ((run ds 10 (some 20) Cancel.never fuel st 0).events).countP isFlush = 1 ∧
    ((run ds 10 (some 20) Cancel.never fuel st 0).events).countP isClose = 1 ∧
    ∃ pubs : List Event,
      (run ds 10 (some 20) Cancel.never fuel st 0).events = pubs ++ stopEvents ∧
      pubs.length = 20 ∧
      ∀ e ∈ pubs, ∃ tx : Transaction, e = Event.publish tx.account_id tx := by
  have hl := loop_limit_eq ds 20 20 (by norm_num) (by norm_num) fuel 0 0 st
    (by omega) (by omega)
  have hr : run ds 10 (some 20) Cancel.never fuel st 0
      = { events := (rateRun ds 20 0 st).1 ++ stopEvents
        , gen := (rateRun ds 20 0 st).2
        , running := false, count := 20, exit := ExitKind.completed } := by
    simp only [run]
    rw [if_neg (by norm_num : ¬ (10:ℚ) = 0)]
    rw [hl]
  rw [hr]
  have hp := rateRun_countP_pub ds 20 0 st
  have hs := rateRun_spec ds 20 0 st
  refine ⟨rfl, rfl, ?_, ?_, ?_, (rateRun ds 20 0 st).1, rfl, by omega, hs.2⟩
  · simp [List.countP_append, hp.1, stopEvents, List.countP_cons, isPublish]
  · simp [List.countP_append, hp.2.1, stopEvents, List.countP_cons, isFlush]
  · simp [List.countP_append, hp.2.2, stopEvents, List.countP_cons, isClose]

/-- Witness for C5: fuel 21, constant draws `d0`, state `st0`. -/
theorem run_rate10_max20_spec_witness :
    20 < 21 ∧
    ((run (fun _ => d0) 10 (some 20) Cancel.never 21 st0 0).exit = ExitKind.completed ∧
    (run (fun _ => d0) 10 (some 20) Cancel.never 21 st0 0).count = 20 ∧
    ((run (fun _ => d0) 10 (some 20) Cancel.never 21 st0 0).events).countP isPublish = 20 ∧
    ((run (fun _ => d0) 10 (some 20) Cancel.never 21 st0 0).events).countP isFlush = 1 ∧
    ((run (fun _ => d0) 10 (some 20) Cancel.never 21 st0 0).events).countP isClose = 1 ∧
    ∃ pubs : List Event,
      (run (fun _ => d0) 10 (some 20) Cancel.never 21 st0 0).events = pubs ++ stopEvents ∧
      pubs.length = 20 ∧
      ∀ e ∈ pubs, ∃ tx : Transaction, e = Event.publish tx.account_id tx) :=
  ⟨by norm_num, run_rate10_max20_spec (fun _ => d0) st0 21 (by norm_num)⟩

lemma gen_account_good (st : GenState) (d : TxDraws) (h : poolGood st) :
    (generate_transaction st d).1.account_id ≠ "" ∧
    poolGood (generate_transaction st d).2 := by
  have hp := pickAccount_good d h.1 h.2
  exact ⟨hp.1, hp.2.1, hp.2.2⟩

lemma burstLoop_keys (ds : Nat → TxDraws) : ∀ (n i count : Nat) (st : GenState),
    poolGood st →
    ((burstLoop ds n i count st).1).length = n ∧
    poolGood (burstLoop ds n i count st).2.1 ∧
    ∀ e ∈ (burstLoop ds n i count st).1,
      ∃ (k : String) (tx : Transaction),
        e = Event.publish k tx ∧ k = tx.account_id ∧ k ≠ "" := by
  intro n
  induction n with
  | zero =>
    intro i count st h
    simp [burstLoop, h]
  | succ n ih =>
    intro i count st h
    have hg := gen_account_good st (ds i) h
    have hr := ih (i + 1) (count + 1) ((generate_transaction st (ds i)).2) hg.2
    simp only [burstLoop]
    refine ⟨by simp [hr.1], hr.2.1, ?_⟩
    intro e he
    simp only [List.mem_cons] at he
    rcases he with rfl | he
    · exact ⟨_, _, rfl, rfl, hg.1⟩
    · exact hr.2.2 e he

/-- C6: for every count `n`, `run_burst n` on an error-free sink publishes
exactly `n` records, each publish carrying a non-null (non-empty) key equal
to the generated record's `account_id`, followed by exactly one flush; the
message counter advances by `n`. -/
theorem run_burst_publish_spec (ds : Nat → TxDraws) (n : Nat) (st : GenState)
    (count0 : Nat) (h : poolGood st) :
    ((run_burst ds n st count0).1).countP isPublish = n ∧
    ((run_burst ds n st count0).1).countP isFlush = 1 ∧
    (run_burst ds n st count0).2.2 = count0 + n ∧
    ∃ pubs : List Event,
      (run_burst ds n st count0).1 = pubs ++ [Event.flush] ∧ pubs.length = n ∧
      ∀ e ∈ pubs, ∃ (k : String) (tx : Transaction),
        e = Event.publish k tx ∧ k = tx.account_id ∧ k ≠ "" := by
  have hc := burstLoop_counts ds n 0 count0 st
  have hk := burstLoop_keys ds n 0 count0 st h
  refine ⟨?_, ?_, hc.2.2.2, (burstLoop ds n 0 count0 st).1, rfl, hk.1, hk.2.2⟩
  · simp [run_burst, List.countP_append, hc.1, List.countP_cons, isPublish]
  · simp [run_burst, List.countP_append, hc.2.1, List.countP_cons, isFlush]

/-- C1 (failing-input evaluation): cancelling `run` via the signal handler
installed by `main` at loop iteration 2 yields a trace with the 2 publishes
followed by TWO flushes and TWO closes — `signal_handler` runs `stop()` and
`sys.exit(0)`, and the `SystemExit` then reaches `run`'s `finally`, which
runs `stop()` again.  No publish occurs after the cancellation, but flush
and close are not invoked exactly once, contradicting the claim. -/
theorem signal_cancel_double_stop :
    (run (fun _ => d0) 1 Option.none (Cancel.signal 2) 10 st0 0).events.countP isFlush = 2 ∧
    (run (fun _ => d0) 1 Option.none (Cancel.signal 2) 10 st0 0).events.countP isClose = 2 ∧
    (run (fun _ => d0) 1 Option.none (Cancel.signal 2) 10 st0 0).events.countP isPublish = 2 ∧
    (run (fun _ => d0) 1 Option.none (Cancel.signal 2) 10 st0 0).count = 2 ∧
    (run (fun _ => d0) 1 Option.none (Cancel.signal 2) 10 st0 0).exit = ExitKind.processExit ∧
    (run (fun _ => d0) 1 Option.none (Cancel.signal 2) 10 st0 0).events.drop 2
      = stopEvents ++ stopEvents ∧
    (∀ e ∈ (run (fun _ => d0) 1 Option.none (Cancel.signal 2) 10 st0 0).events.take 2,
      isPublish e = true) := by
  refine ⟨?_, ?_, ?_, ?_, ?_, ?_, ?_⟩ <;> decide

/-- Witness for C6 at `n = 500`, constant draws `d0`, state `st0`. -/
theorem run_burst_publish_spec_witness :
    poolGood st0 ∧
    (((run_burst (fun _ => d0) 500 st0 0).1).countP isPublish = 500 ∧
    ((run_burst (fun _ => d0) 500 st0 0).1).countP isFlush = 1 ∧
    (run_burst (fun _ => d0) 500 st0 0).2.2 = 0 + 500 ∧
    ∃ pubs : List Event,
      (run_burst (fun _ => d0) 500 st0 0).1 = pubs ++ [Event.flush] ∧ pubs.length = 500 ∧
      ∀ e ∈ pubs, ∃ (k : String) (tx : Transaction),
        e = Event.publish k tx ∧ k = tx.account_id ∧ k ≠ "") :=
  ⟨by decide, run_burst_publish_spec (fun _ => d0) 500 st0 0 (by decide)⟩
